import Mathlib

/-!
# Verification of the geoidentix attendance backend core

Shallow embedding of the core components of the attendance backend:
the JWT token codec (`src/utils/jwt.ts`), the tenant service with
refresh-token rotation (`src/modules/tenants/tenant.service.ts`), the
geo-fence evaluator (`src/utils/geoLocation.ts`), the face-comparison
wrapper (`src/utils/rekognition.ts`) and the attendance service
(`src/modules/attendance/attendance.service.ts`).

Modelling conventions:
* Time is a `Nat` (seconds since epoch).  `new Date()` becomes a `now`
  parameter; `setHours(0,0,0,0)` becomes truncation to a multiple of
  86400 (the server-local day used by the code).
* JavaScript numbers that only flow through data (coordinates,
  similarity scores, embeddings) are `ℚ`; the haversine computation,
  which genuinely uses transcendental functions, is modelled over `ℝ`
  with casts at the call boundary.
* A JWT is modelled structurally: `jwt.sign(payload, secret, expiresIn)`
  produces a record of the claims, the signing secret and the expiry
  instant; `jwt.verify(token, secret)` succeeds exactly when the token
  was signed with the same secret and is not expired, and returns the
  embedded claims (the TypeScript `as Payload` cast is unchecked, so the
  verifier returns the raw claims object).
* `crypto.createHash('sha256')` is modelled as an injective constructor
  (collision resistance), producing a value of a type distinct from raw
  tokens.
* Database rows live in explicit lists inside a `DB` record; prisma
  calls become list operations; prisma/network failures that the code
  can encounter mid-operation are modelled by explicit failure flags.
-/

/-! ## Plan tiers and token payloads (`src/utils/jwt.ts`) -/

inductive PlanType where
  | FREE
  | PAID
deriving DecidableEq

structure AccessTokenPayload where
  tenantId : String
  username : String
  planType : PlanType
deriving DecidableEq

structure RefreshTokenPayload where
  tenantId : String
  tokenId : String
deriving DecidableEq

structure LocationTokenPayload where
  tenantId : String
  employeeId : String
  latitude : ℚ
  longitude : ℚ
deriving DecidableEq

/-- The claims object carried inside a JWT; one shape per token kind. -/
inductive JwtClaims where
  | access (p : AccessTokenPayload)
  | refresh (p : RefreshTokenPayload)
  | location (p : LocationTokenPayload)
deriving DecidableEq

/-- All three claim shapes expose a `tenantId` field. -/
def JwtClaims.tenantId : JwtClaims → String
  | .access p => p.tenantId
  | .refresh p => p.tenantId
  | .location p => p.tenantId

/-- A signed JWT: the claims, the secret it was signed with, and the
expiry instant (`iat + expiresIn`). -/
structure Token where
  claims : JwtClaims
  secret : String
  exp : Nat
deriving DecidableEq

/-- Process-wide configuration (`src/config/index.ts`): the three JWT
secrets and expiry windows, the Rekognition similarity threshold and the
allowed check-in radius in meters. -/
structure Config where
  accessSecret : String
  refreshSecret : String
  locationSecret : String
  accessExpiry : Nat
  refreshExpiry : Nat
  locationExpiry : Nat
  similarityThreshold : ℚ
  allowedCheckInRadius : ℚ

inductive JwtError where
  | invalidOrExpired
deriving DecidableEq

/-- `generateAccessToken` (jwt.ts line 26): sign with the access secret. -/
def generateAccessToken (cfg : Config) (payload : AccessTokenPayload)
    (now : Nat) : Token :=
  { claims := .access payload, secret := cfg.accessSecret
    exp := now + cfg.accessExpiry }

/-- `generateRefreshToken` (jwt.ts line 35): sign with the refresh secret. -/
def generateRefreshToken (cfg : Config) (payload : RefreshTokenPayload)
    (now : Nat) : Token :=
  { claims := .refresh payload, secret := cfg.refreshSecret
    exp := now + cfg.refreshExpiry }

/-- `generateLocationToken` (jwt.ts line 44): sign with the location secret. -/
def generateLocationToken (cfg : Config) (payload : LocationTokenPayload)
    (now : Nat) : Token :=
  { claims := .location payload, secret := cfg.locationSecret
    exp := now + cfg.locationExpiry }

/-- `verifyAccessToken` (jwt.ts line 55): `jwt.verify` against the access
secret; any signature or expiry failure is collapsed by the catch block
into one error.  The `as AccessTokenPayload` cast is unchecked, so on
success the raw claims are returned. -/
def verifyAccessToken (cfg : Config) (t : Token) (now : Nat) :
    Except JwtError JwtClaims :=
  if t.secret = cfg.accessSecret then
    if now < t.exp then .ok t.claims else .error .invalidOrExpired
  else .error .invalidOrExpired

/-- `verifyRefreshToken` (jwt.ts line 66). -/
def verifyRefreshToken (cfg : Config) (t : Token) (now : Nat) :
    Except JwtError JwtClaims :=
  if t.secret = cfg.refreshSecret then
    if now < t.exp then .ok t.claims else .error .invalidOrExpired
  else .error .invalidOrExpired

/-- `verifyLocationToken` (jwt.ts line 77). -/
def verifyLocationToken (cfg : Config) (t : Token) (now : Nat) :
    Except JwtError JwtClaims :=
  if t.secret = cfg.locationSecret then
    if now < t.exp then .ok t.claims else .error .invalidOrExpired
  else .error .invalidOrExpired

/-- The sha256 hex digest of a serialized token (`hashToken`, jwt.ts
line 88), modelled as an injective constructor: collision resistance is
idealized as injectivity, and the digest type is distinct from `Token`
so a digest is never itself a usable token. -/
structure Sha256Digest where
  preimage : Token
deriving DecidableEq

/-- `hashToken` (jwt.ts line 88): `sha256(token)` in hex. -/
def hashToken (t : Token) : Sha256Digest := ⟨t⟩

/-! ## Data model (prisma schema, migration in the repo docs) -/

/-- A bcrypt password hash (`src/utils/password.ts`), modelled as an
opaque verifiable capability per the spec's out-of-scope list. -/
structure HashedPassword where
  source : String
deriving DecidableEq

def hashPassword (plaintext : String) : HashedPassword := ⟨plaintext⟩

def comparePassword (plaintext : String) (h : HashedPassword) : Bool :=
  h.source = plaintext

structure Tenant where
  id : String
  tenantName : String
  gst : String
  address : String
  longitude : ℚ
  latitude : ℚ
  username : String
  password : HashedPassword
  planType : PlanType
deriving DecidableEq

/-- The tenant record with the password stripped, as returned by the
service layer (`const { password: _, ...tenantWithoutPassword }`). -/
structure TenantPublic where
  id : String
  tenantName : String
  gst : String
  address : String
  longitude : ℚ
  latitude : ℚ
  username : String
  planType : PlanType
deriving DecidableEq

def Tenant.public (t : Tenant) : TenantPublic :=
  { id := t.id, tenantName := t.tenantName, gst := t.gst
    address := t.address, longitude := t.longitude, latitude := t.latitude
    username := t.username, planType := t.planType }

structure Employee where
  id : String
  tenantId : String
  name : String
  photoUrl : String
  embedding : List ℚ
  salary : ℚ
  emergencyContactNumber : String
  contactNumber : String
deriving DecidableEq

structure Attendance where
  id : Nat
  tenantId : String
  employeeId : String
  photoUrl : String
  embedding : List ℚ
  checkInTime : Nat
  matchConfidence : Option ℚ
deriving DecidableEq

structure RefreshSession where
  id : Nat
  tenantId : String
  tokenHash : Sha256Digest
  expiresAt : Nat
  isRevoked : Bool
deriving DecidableEq

/-- The relational store: one list per prisma model. -/
structure DB where
  tenants : List Tenant
  employees : List Employee
  attendances : List Attendance
  refreshSessions : List RefreshSession
deriving DecidableEq

/-! ## Typed domain errors

One constructor per `AppError` throw site relevant to the core
(`tenant.service.ts`, `attendance.service.ts`).  The HTTP status and
message are in the comments; failure kinds that the spec's taxonomy
names are kept distinct. -/

inductive AppErr where
  /-- 'Username already exists', 409 -/
  | usernameExists
  /-- 'GST number already registered', 409 -/
  | gstExists
  /-- 'Invalid username or password', 401 -/
  | invalidCredentials
  /-- 'Invalid or revoked refresh token', 401 (covers both a missing row
  and a revoked row — one throw site for both conditions) -/
  | invalidOrRevokedRefresh
  /-- 'Refresh token expired', 401 -/
  | refreshExpired
  /-- 'Token tenant mismatch', 401 -/
  | tokenTenantMismatch
  /-- 'Failed to refresh token', 500 (catch-all for non-AppError throws
  inside refreshAccessToken, including jwt verification failures and
  prisma failures) -/
  | failedToRefreshToken
  /-- 'Invalid latitude/longitude ...', 400 -/
  | invalidCoordinates
  /-- 'Employee not found', 404 -/
  | employeeNotFound
  /-- 'Tenant not found', 404 -/
  | tenantNotFound
  /-- 'Invalid or expired location token', 401 -/
  | invalidLocationToken
  /-- 'Employee ID mismatch with location token', 403 -/
  | employeeIdMismatch
  /-- 'Invalid embedding format', 400 -/
  | invalidEmbedding
  /-- 'Tenant mismatch', 403 -/
  | tenantMismatch
  /-- 'Face verification failed ...', 400 on a reported non-match, 500
  when the Rekognition call throws -/
  | faceVerificationFailed
  /-- 'Already checked in today', 409 -/
  | alreadyCheckedIn
deriving DecidableEq

/-! ## Tenant service (`src/modules/tenants/tenant.service.ts`) -/

structure RegisterTenantInput where
  tenantName : String
  gst : String
  address : String
  longitude : ℚ
  latitude : ℚ
  username : String
  password : String
  planType : Option PlanType
deriving DecidableEq

structure LoginResponse where
  tenant : TenantPublic
  accessToken : Token
  refreshToken : Token
deriving DecidableEq

/-- `registerTenant` (tenant.service.ts lines 36-113).  `newTenantId`
stands for the UUID prisma generates for the new row and `tokenUuid` for
`crypto.randomUUID()`. -/
def registerTenant (cfg : Config) (input : RegisterTenantInput) (now : Nat)
    (newTenantId tokenUuid : String) (db : DB) :
    Except AppErr LoginResponse × DB :=
  if db.tenants.any (fun t => t.username = input.username) then
    (.error .usernameExists, db)
  else if db.tenants.any (fun t => t.gst = input.gst) then
    (.error .gstExists, db)
  else
    let tenant : Tenant :=
      { id := newTenantId, tenantName := input.tenantName, gst := input.gst
        address := input.address, longitude := input.longitude
        latitude := input.latitude, username := input.username
        password := hashPassword input.password
        planType := input.planType.getD .FREE }
    let db1 := { db with tenants := db.tenants ++ [tenant] }
    let accessToken := generateAccessToken cfg
      { tenantId := tenant.id, username := tenant.username
        planType := tenant.planType } now
    let refreshToken := generateRefreshToken cfg
      { tenantId := tenant.id, tokenId := tokenUuid } now
    let row : RefreshSession :=
      { id := db1.refreshSessions.length, tenantId := tenant.id
        tokenHash := hashToken refreshToken
        expiresAt := now + cfg.refreshExpiry, isRevoked := false }
    (.ok { tenant := tenant.public, accessToken := accessToken
           refreshToken := refreshToken },
     { db1 with refreshSessions := db1.refreshSessions ++ [row] })

/-- `loginTenant` (tenant.service.ts lines 118-179). -/
def loginTenant (cfg : Config) (username password : String) (now : Nat)
    (tokenUuid : String) (db : DB) : Except AppErr LoginResponse × DB :=
  match db.tenants.find? (fun t => t.username = username) with
  | none => (.error .invalidCredentials, db)
  | some tenant =>
    if ¬ comparePassword password tenant.password then
      (.error .invalidCredentials, db)
    else
      let accessToken := generateAccessToken cfg
        { tenantId := tenant.id, username := tenant.username
          planType := tenant.planType } now
      let refreshToken := generateRefreshToken cfg
        { tenantId := tenant.id, tokenId := tokenUuid } now
      let row : RefreshSession :=
        { id := db.refreshSessions.length, tenantId := tenant.id
          tokenHash := hashToken refreshToken
          expiresAt := now + cfg.refreshExpiry, isRevoked := false }
      (.ok { tenant := tenant.public, accessToken := accessToken
             refreshToken := refreshToken },
       { db with refreshSessions := db.refreshSessions ++ [row] })

/-- The stored-session validation inside `refreshAccessToken`
(tenant.service.ts lines 190-201): look the row up by token hash, then
reject revoked (the same throw also covers a missing row) and expired
rows.  The expiry test is the code's `storedToken.expiresAt < new
Date()`, i.e. the row is rejected only when `now` is strictly past the
expiry instant. -/
def validateStoredSession (db : DB) (h : Sha256Digest) (now : Nat) :
    Except AppErr RefreshSession :=
  match db.refreshSessions.find? (fun s => s.tokenHash = h) with
  | none => .error .invalidOrRevokedRefresh
  | some s =>
    if s.isRevoked then .error .invalidOrRevokedRefresh
    else if s.expiresAt < now then .error .refreshExpired
    else .ok s

/-- `refreshAccessToken` (tenant.service.ts lines 184-253).  The revoke
update and the create of the replacement session are two separate awaits
with no surrounding transaction; `revokeFails`/`createFails` model a
prisma failure of the respective write (the thrown prisma error is not
an `AppError`, so the catch block surfaces it as 'Failed to refresh
token', 500).  A failed create does not undo the already-committed
revoke update. -/
def refreshAccessToken (cfg : Config) (token : Token) (now : Nat)
    (tokenUuid : String) (revokeFails createFails : Bool) (db : DB) :
    Except AppErr LoginResponse × DB :=
  match verifyRefreshToken cfg token now with
  | .error _ => (.error .failedToRefreshToken, db)
  | .ok payload =>
    match validateStoredSession db (hashToken token) now with
    | .error e => (.error e, db)
    | .ok storedToken =>
      if storedToken.tenantId ≠ payload.tenantId then
        (.error .tokenTenantMismatch, db)
      else if revokeFails then (.error .failedToRefreshToken, db)
      else
        let db1 := { db with refreshSessions :=
          db.refreshSessions.map (fun (r : RefreshSession) =>
            if r.id = storedToken.id then { r with isRevoked := true }
            else r) }
        match db1.tenants.find? (fun (t : Tenant) => t.id = storedToken.tenantId) with
        | none =>
          -- a missing `storedToken.tenant` would surface as a TypeError
          -- caught by the catch block, after the revoke committed
          (.error .failedToRefreshToken, db1)
        | some tenant =>
          let accessToken := generateAccessToken cfg
            { tenantId := tenant.id, username := tenant.username
              planType := tenant.planType } now
          let newRefreshToken := generateRefreshToken cfg
            { tenantId := tenant.id, tokenId := tokenUuid } now
          if createFails then (.error .failedToRefreshToken, db1)
          else
            let row : RefreshSession :=
              { id := db1.refreshSessions.length, tenantId := tenant.id
                tokenHash := hashToken newRefreshToken
                expiresAt := now + cfg.refreshExpiry, isRevoked := false }
            (.ok { tenant := tenant.public, accessToken := accessToken
                   refreshToken := newRefreshToken },
             { db1 with refreshSessions := db1.refreshSessions ++ [row] })

/-! ## Geo-fence evaluator (`src/utils/geoLocation.ts`)

`calculateDistance` is the idealization of the JavaScript haversine
computation over the real numbers; `Math.atan2` is modelled by `atan2`
below, which agrees with the IEEE definition on finite inputs. -/

/-- `Math.atan2 y x` for finite arguments. -/
noncomputable def atan2 (y x : ℝ) : ℝ :=
  if 0 < x then Real.arctan (y / x)
  else if x < 0 then
    (if 0 ≤ y then Real.arctan (y / x) + Real.pi
     else Real.arctan (y / x) - Real.pi)
  else if 0 < y then Real.pi / 2
  else if y < 0 then -(Real.pi / 2)
  else 0

/-- `calculateDistance` (geoLocation.ts lines 74-93): haversine distance
in meters on a sphere of radius 6,371,000 m; inputs in degrees. -/
noncomputable def calculateDistance (lat1 lon1 lat2 lon2 : ℝ) : ℝ :=
  let R : ℝ := 6371e3
  let phi1 := lat1 * Real.pi / 180
  let phi2 := lat2 * Real.pi / 180
  let dphi := (lat2 - lat1) * Real.pi / 180
  let dlambda := (lon2 - lon1) * Real.pi / 180
  let a := Real.sin (dphi / 2) * Real.sin (dphi / 2) +
    Real.cos phi1 * Real.cos phi2 *
      (Real.sin (dlambda / 2) * Real.sin (dlambda / 2))
  let c := 2 * atan2 (Real.sqrt a) (Real.sqrt (1 - a))
  R * c

/-- `isWithinRadius` (geoLocation.ts lines 98-107):
`calculateDistance(...) <= radiusMeters`. -/
def isWithinRadius (checkLat checkLon centerLat centerLon radiusMeters : ℝ) :
    Prop :=
  calculateDistance checkLat checkLon centerLat centerLon ≤ radiusMeters

/-- `isValidLatitude` (geoLocation.ts line 112). -/
def isValidLatitude (lat : ℚ) : Bool := -90 ≤ lat && lat ≤ 90

/-- `isValidLongitude` (geoLocation.ts line 119). -/
def isValidLongitude (lon : ℚ) : Bool := -180 ≤ lon && lon ≤ 180

/-- `validateCoordinates` (geoLocation.ts lines 126-137), reduced to its
`isValid` flag (the error strings only feed the thrown message). -/
def validateCoordinates (lat lon : ℚ) : Bool :=
  isValidLatitude lat && isValidLongitude lon

/-! ## Face comparison (`src/utils/rekognition.ts`) -/

/-- One entry of `response.FaceMatches` from the Rekognition API;
`Similarity` and `Face.Confidence` are optional in the AWS SDK types. -/
structure RekognitionFaceMatch where
  similarity : Option ℚ
  faceConfidence : Option ℚ
deriving DecidableEq

/-- The fields of the `CompareFaces` response the code reads. -/
structure RekognitionResponse where
  faceMatches : Option (List RekognitionFaceMatch)
deriving DecidableEq

structure FaceComparisonResult where
  isMatch : Bool
  confidence : ℚ
  similarity : ℚ
deriving DecidableEq

/-- JavaScript `v || 0` on an optional number: `0`, `undefined` (and
`NaN`, unrepresentable here) are falsy and give `0`. -/
def jsOrZero (v : Option ℚ) : ℚ :=
  match v with
  | some q => if q = 0 then 0 else q
  | none => 0

/-- `compareFaces` (rekognition.ts lines 45-95).  The image downloads
and the Rekognition call are external I/O, abstracted as the `resp`
argument: `.error ()` when any of them throws (the code then throws
'Failed to compare faces using AWS Rekognition').  The guard
`FaceMatches && FaceMatches.length > 0 && FaceMatches[0].Similarity`
requires a present, non-zero similarity (JavaScript truthiness). -/
def compareFaces (threshold : ℚ) (resp : Except Unit RekognitionResponse) :
    Except Unit FaceComparisonResult :=
  match resp with
  | .error _ => .error ()
  | .ok r =>
    match r.faceMatches with
    | some (m :: _) =>
      match m.similarity with
      | some s =>
        if s ≠ 0 then
          .ok { isMatch := decide (threshold ≤ s)
                confidence := jsOrZero m.faceConfidence, similarity := s }
        else .ok { isMatch := false, confidence := 0, similarity := 0 }
      | none => .ok { isMatch := false, confidence := 0, similarity := 0 }
    | _ => .ok { isMatch := false, confidence := 0, similarity := 0 }

/-! ## Attendance service (`src/modules/attendance/attendance.service.ts`) -/

/-- `isValidEmbedding` (validators.ts lines 45-56): must be a non-empty
array of numbers.  The `Array.isArray` and `typeof 'number' && !isNaN`
checks are guaranteed by the `List ℚ` type, leaving the emptiness test. -/
def isValidEmbedding (embedding : List ℚ) : Bool :=
  ¬ embedding.isEmpty

structure LocationCheckInput where
  employeeId : String
  latitude : ℚ
  longitude : ℚ
deriving DecidableEq

structure LocationCheckResponse where
  success : Bool
  tenantId : Option String
  tenantName : Option String
  address : Option String
  locationToken : Option Token
  message : String
deriving DecidableEq

structure CheckInInput where
  employeeId : String
  photoUrl : String
  embedding : List ℚ
  locationToken : Token
deriving DecidableEq

open Classical in
/-- `AttendanceService.checkEmployeeLocation` (attendance.service.ts
lines 102-176).  Pure with respect to the store: the handler only reads.
The geo-fence branch compares real numbers, hence the classical
decision. -/
noncomputable def checkEmployeeLocation (cfg : Config)
    (input : LocationCheckInput) (now : Nat) (db : DB) :
    Except AppErr LocationCheckResponse :=
  if ¬ validateCoordinates input.latitude input.longitude then
    .error .invalidCoordinates
  else
    match db.employees.find? (fun e => e.id = input.employeeId) with
    | none => .error .employeeNotFound
    | some employee =>
      match db.tenants.find? (fun t => t.id = employee.tenantId) with
      | none => .error .tenantNotFound
      | some tenant =>
        if isWithinRadius input.latitude input.longitude
            tenant.latitude tenant.longitude cfg.allowedCheckInRadius then
          .ok { success := false, tenantId := none, tenantName := none
                address := none, locationToken := none
                message := "You are within the office premises. Please proceed with check-in." }
        else
          let locationToken := generateLocationToken cfg
            { tenantId := tenant.id, employeeId := employee.id
              latitude := input.latitude, longitude := input.longitude } now
          .ok { success := true, tenantId := some tenant.id
                tenantName := some tenant.tenantName
                address := some tenant.address
                locationToken := some locationToken
                message := "Location verified. You are outside office premises." }

/-- `AttendanceService.checkIn` (attendance.service.ts lines 181-300).
The Rekognition call is abstracted as the `oracle` argument (see
`compareFaces`).  `new Date(); setHours(0,0,0,0)` becomes truncation of
`now` to the start of the server-local day.  The attendance insert is
the last step; every error path returns the store unchanged. -/
def checkIn (cfg : Config) (input : CheckInInput)
    (oracle : Except Unit RekognitionResponse) (now : Nat) (db : DB) :
    Except AppErr Attendance × DB :=
  match verifyLocationToken cfg input.locationToken now with
  | .error _ => (.error .invalidLocationToken, db)
  | .ok claims =>
    match claims with
    | .location locationPayload =>
      if locationPayload.employeeId ≠ input.employeeId then
        (.error .employeeIdMismatch, db)
      else if ¬ isValidEmbedding input.embedding then
        (.error .invalidEmbedding, db)
      else
        match db.employees.find? (fun e => e.id = input.employeeId) with
        | none => (.error .employeeNotFound, db)
        | some employee =>
          if employee.tenantId ≠ locationPayload.tenantId then
            (.error .tenantMismatch, db)
          else
            match db.tenants.find? (fun t => t.id = employee.tenantId) with
            | none => (.error .tenantNotFound, db)
            | some tenant =>
              let faceStep : Except AppErr (Option ℚ) :=
                if tenant.planType = .PAID then
                  match compareFaces cfg.similarityThreshold oracle with
                  | .error _ => .error .faceVerificationFailed
                  | .ok comparisonResult =>
                    if ¬ comparisonResult.isMatch then
                      .error .faceVerificationFailed
                    else
                      -- `comparisonResult.similarity || 0`
                      .ok (some (jsOrZero (some comparisonResult.similarity)))
                else .ok none
              match faceStep with
              | .error e => (.error e, db)
              | .ok matchConfidence =>
                let today := now / 86400 * 86400
                match db.attendances.find? (fun a =>
                    a.employeeId = input.employeeId &&
                    today ≤ a.checkInTime) with
                | some _ => (.error .alreadyCheckedIn, db)
                | none =>
                  let attendance : Attendance :=
                    { id := db.attendances.length
                      tenantId := employee.tenantId
                      employeeId := employee.id
                      photoUrl := input.photoUrl
                      embedding := input.embedding
                      checkInTime := now
                      matchConfidence := matchConfidence }
                  (.ok attendance,
                   { db with attendances := db.attendances ++ [attendance] })
    | _ =>
      -- a claims object of another shape has no `employeeId` field;
      -- `undefined !== input.employeeId` takes the mismatch branch
      (.error .employeeIdMismatch, db)

/-- One inbound check-in request: its body, the Rekognition outcome the
environment would produce for it, and the wall-clock instant it runs. -/
structure CheckInCall where
  input : CheckInInput
  oracle : Except Unit RekognitionResponse
  now : Nat

/-- A sequence of non-concurrent `checkIn` calls, each one seeing the
store left by the previous one. -/
def runCheckIns (cfg : Config) (calls : List CheckInCall) (db : DB) : DB :=
  calls.foldl (fun d c => (checkIn cfg c.input c.oracle c.now d).2) db

/-- At most one attendance row per (employeeId, server-local calendar
day): any two distinct rows for the same employee fall on different
days. -/
def attendanceUnique (l : List Attendance) : Prop :=
  l.Pairwise (fun a b =>
    a.employeeId = b.employeeId →
    a.checkInTime / 86400 ≠ b.checkInTime / 86400)

/-- Decidable equality of `Except` results, so that concrete runs of the
services can be checked by `decide`. -/
instance instDecidableEqExcept {ε α : Type} [DecidableEq ε] [DecidableEq α] :
    DecidableEq (Except ε α)
  | .error e₁, .error e₂ =>
    if h : e₁ = e₂ then isTrue (by rw [h])
    else isFalse (fun hc => h (by injection hc))
  | .error _, .ok _ => isFalse (fun hc => Except.noConfusion hc)
  | .ok _, .error _ => isFalse (fun hc => Except.noConfusion hc)
  | .ok a₁, .ok a₂ =>
    if h : a₁ = a₂ then isTrue (by rw [h])
    else isFalse (fun hc => h (by injection hc))

/-! ## Geo-fence lemmas -/

/-! ## Concrete scenarios used by the counterexample and witness theorems -/

/-- A concrete configuration used by the witness scenarios: the default
expiries (15 m / 7 d / 5 m in seconds), the default 85.0 similarity
threshold and 100 m radius, and three distinct secrets. -/
def cfgW : Config :=
  { accessSecret := "sa", refreshSecret := "sr", locationSecret := "sl"
    accessExpiry := 900, refreshExpiry := 604800, locationExpiry := 300
    similarityThreshold := 85, allowedCheckInRadius := 100 }

/-- A refresh token issued at time 0 under `cfgW` for tenant `t1`. -/
def tokenC : Token := generateRefreshToken cfgW ⟨"t1", "sid1"⟩ 0

/-- A stored, unrevoked session for `tokenC` expiring at t = 1000. -/
def sessionC : RefreshSession :=
  { id := 0, tenantId := "t1", tokenHash := hashToken tokenC
    expiresAt := 1000, isRevoked := false }

def dbC : DB :=
  { tenants := [], employees := [], attendances := []
    refreshSessions := [sessionC] }

/-- The tenant owning the sessions in the rotation scenarios. -/
def tenantC1 : Tenant :=
  { id := "t1", tenantName := "Acme", gst := "g1", address := "HQ"
    longitude := 10, latitude := 20, username := "u1"
    password := hashPassword "pw", planType := .FREE }

/-- An unrevoked session for `tokenC` with the full 7-day expiry. -/
def sessionC1 : RefreshSession :=
  { id := 0, tenantId := "t1", tokenHash := hashToken tokenC
    expiresAt := 604800, isRevoked := false }

def dbC1 : DB :=
  { tenants := [tenantC1], employees := [], attendances := []
    refreshSessions := [sessionC1] }

def db0 : DB :=
  { tenants := [], employees := [], attendances := [], refreshSessions := [] }

def regInputW : RegisterTenantInput :=
  { tenantName := "Acme", gst := "g1", address := "HQ", longitude := 10
    latitude := 20, username := "u1", password := "pw", planType := none }

def tenantRegW : Tenant :=
  { id := "t9", tenantName := "Acme", gst := "g1", address := "HQ"
    longitude := 10, latitude := 20, username := "u1"
    password := hashPassword "pw", planType := .FREE }

def resRegW : LoginResponse :=
  { tenant := tenantRegW.public
    accessToken := generateAccessToken cfgW ⟨"t9", "u1", .FREE⟩ 0
    refreshToken := generateRefreshToken cfgW ⟨"t9", "uuidR"⟩ 0 }

def rowRegW : RefreshSession :=
  { id := 0, tenantId := "t9", tokenHash := hashToken resRegW.refreshToken
    expiresAt := 604800, isRevoked := false }

def dbRegW : DB :=
  { tenants := [tenantRegW], employees := [], attendances := []
    refreshSessions := [rowRegW] }

def resLogW : LoginResponse :=
  { tenant := tenantRegW.public
    accessToken := generateAccessToken cfgW ⟨"t9", "u1", .FREE⟩ 5
    refreshToken := generateRefreshToken cfgW ⟨"t9", "uuidL"⟩ 5 }

def rowLogW : RefreshSession :=
  { id := 1, tenantId := "t9", tokenHash := hashToken resLogW.refreshToken
    expiresAt := 5 + 604800, isRevoked := false }

def dbLogW : DB :=
  { dbRegW with refreshSessions := dbRegW.refreshSessions ++ [rowLogW] }

def resRefW : LoginResponse :=
  { tenant := tenantRegW.public
    accessToken := generateAccessToken cfgW ⟨"t9", "u1", .FREE⟩ 10
    refreshToken := generateRefreshToken cfgW ⟨"t9", "uuidR2"⟩ 10 }

def rowRefW : RefreshSession :=
  { id := 1, tenantId := "t9", tokenHash := hashToken resRefW.refreshToken
    expiresAt := 10 + 604800, isRevoked := false }

def dbRefW : DB :=
  { dbRegW with refreshSessions := [{ rowRegW with isRevoked := true }, rowRefW] }

def empE1 : Employee :=
  { id := "e1", tenantId := "t1", name := "Asha", photoUrl := "pa"
    embedding := [1], salary := 100
    emergencyContactNumber := "9111111111", contactNumber := "9222222222" }

def empE2 : Employee :=
  { id := "e2", tenantId := "t1", name := "Bela", photoUrl := "pb"
    embedding := [2], salary := 100
    emergencyContactNumber := "9333333333", contactNumber := "9444444444" }

/-- A location token minted for employee `e1` of tenant `t1`. -/
def tokE1 : Token := generateLocationToken cfgW ⟨"t1", "e1", 10, 20⟩ 0

def inpE1 : CheckInInput :=
  { employeeId := "e1", photoUrl := "p", embedding := [1]
    locationToken := tokE1 }

/-- An attendance recorded earlier the same day (t = 100). -/
def attPrev : Attendance :=
  { id := 0, tenantId := "t1", employeeId := "e1", photoUrl := "p0"
    embedding := [1], checkInTime := 100, matchConfidence := none }

def dbC3 : DB :=
  { tenants := [tenantC1], employees := [empE1], attendances := [attPrev]
    refreshSessions := [] }

def dbC5F : DB :=
  { tenants := [tenantC1], employees := [empE1], attendances := []
    refreshSessions := [] }

def tenantP : Tenant := { tenantC1 with planType := .PAID }

def dbC5P : DB :=
  { tenants := [tenantP], employees := [empE1], attendances := []
    refreshSessions := [] }

/-- A Rekognition response reporting one face match at similarity 90. -/
def orcGood : Except Unit RekognitionResponse :=
  .ok ⟨some [⟨some 90, some 99⟩]⟩

/-- A Rekognition response reporting one face match at similarity 50,
below the 85 threshold (so `compareFaces` reports no match). -/
def orcBad : Except Unit RekognitionResponse :=
  .ok ⟨some [⟨some 50, some 99⟩]⟩

/-- The attendance row created by the FREE-tier witness check-in. -/
def attF : Attendance :=
  { id := 0, tenantId := "t1", employeeId := "e1", photoUrl := "p"
    embedding := [1], checkInTime := 50, matchConfidence := none }

/-- The attendance row created by the PAID-tier witness check-in. -/
def attP : Attendance :=
  { id := 0, tenantId := "t1", employeeId := "e1", photoUrl := "p"
    embedding := [1], checkInTime := 50, matchConfidence := some 90 }

/-- The witness tenant relocated to (0°, 0°). -/
def tenant00 : Tenant := { tenantC1 with latitude := 0, longitude := 0 }

def dbLoc : DB :=
  { tenants := [tenant00], employees := [empE1], attendances := []
    refreshSessions := [] }

def inpLocIn : LocationCheckInput :=
  { employeeId := "e1", latitude := 0, longitude := 0 }

def inpLocOut : LocationCheckInput :=
  { employeeId := "e1", latitude := 0, longitude := 180 }

/-- A location token minted for employee `e2` of the same tenant. -/
def tokE2 : Token := generateLocationToken cfgW ⟨"t1", "e2", 10, 20⟩ 0

/-- A check-in request by `e1` presenting `e2`'s token. -/
def inpMisW : CheckInInput :=
  { employeeId := "e1", photoUrl := "p", embedding := [1]
    locationToken := tokE2 }

def dbC7 : DB :=
  { tenants := [tenantC1], employees := [empE1, empE2], attendances := []
    refreshSessions := [] }

/-- A check-in request presenting an access token where a location token
is expected (wrong kind, wrong secret). -/
def inpBadTok : CheckInInput :=
  { employeeId := "e1", photoUrl := "p", embedding := [1]
    locationToken := generateAccessToken cfgW ⟨"t1", "u1", .FREE⟩ 0 }

theorem calculateDistance_self (lat lon : ℝ) :
    calculateDistance lat lon lat lon = 0 := by
  simp only [calculateDistance]
  have h1 : (lat - lat) * Real.pi / 180 / 2 = 0 := by ring
  have h2 : (lon - lon) * Real.pi / 180 / 2 = 0 := by ring
  rw [h1, h2, Real.sin_zero]
  norm_num [atan2, Real.arctan_zero]

theorem calculateDistance_comm (lat1 lon1 lat2 lon2 : ℝ) :
    calculateDistance lat1 lon1 lat2 lon2 =
      calculateDistance lat2 lon2 lat1 lon1 := by
  simp only [calculateDistance]
  have h1 : (lat1 - lat2) * Real.pi / 180 = -((lat2 - lat1) * Real.pi / 180) := by
    ring
  have h2 : (lon1 - lon2) * Real.pi / 180 = -((lon2 - lon1) * Real.pi / 180) := by
    ring
  rw [h1, h2, neg_div, neg_div, Real.sin_neg, Real.sin_neg]
  ring_nf

/-- The haversine distance from (0°, 180°) to (0°, 0°): half the
circumference of the modelled sphere. -/
theorem calculateDistance_antipode :
    calculateDistance 0 180 0 0 = 6371e3 * Real.pi := by
  simp only [calculateDistance]
  have h1 : ((0 : ℝ) - 0) * Real.pi / 180 / 2 = 0 := by ring
  have h2 : ((0 : ℝ) - 180) * Real.pi / 180 / 2 = -(Real.pi / 2) := by ring
  have h3 : (0 : ℝ) * Real.pi / 180 = 0 := by ring
  rw [h1, h2, h3, Real.sin_zero, Real.sin_neg, Real.sin_pi_div_two,
    Real.cos_zero]
  norm_num [atan2]
  ring

/-- A point at the geofence center is within any non-negative radius. -/
theorem isWithinRadius_center (lat lon radius : ℝ) (h : 0 ≤ radius) :
    isWithinRadius lat lon lat lon radius := by
  unfold isWithinRadius
  rw [calculateDistance_self]
  exact h

/-- A point a quarter of the globe plus away is not within a 100 m
radius: the concrete outside-the-fence scenario used by witnesses. -/
theorem not_isWithinRadius_antipode :
    ¬ isWithinRadius ((0 : ℚ) : ℝ) ((180 : ℚ) : ℝ) ((0 : ℚ) : ℝ)
      ((0 : ℚ) : ℝ) ((100 : ℚ) : ℝ) := by
  unfold isWithinRadius
  push_cast
  rw [calculateDistance_antipode]
  intro h
  nlinarith [Real.pi_gt_three]

/-- C9: for all valid coordinate pairs, the great-circle distance is
zero from a point to itself and is symmetric in its two endpoints. -/
theorem claim_C9_distance_refl_and_symm
    (plat plon alat alon blat blon : ℝ)
    (hplat : -90 ≤ plat ∧ plat ≤ 90) (hplon : -180 ≤ plon ∧ plon ≤ 180)
    (halat : -90 ≤ alat ∧ alat ≤ 90) (halon : -180 ≤ alon ∧ alon ≤ 180)
    (hblat : -90 ≤ blat ∧ blat ≤ 90) (hblon : -180 ≤ blon ∧ blon ≤ 180) :
    calculateDistance plat plon plat plon = 0 ∧
    calculateDistance alat alon blat blon =
      calculateDistance blat blon alat alon :=
  ⟨calculateDistance_self plat plon, calculateDistance_comm alat alon blat blon⟩

/-- Witness for C9 at the spec's example office (12.9716, 77.5946) and
two more points. -/
theorem claim_C9_distance_refl_and_symm_witness :
    calculateDistance 12.9716 77.5946 12.9716 77.5946 = 0 ∧
    calculateDistance 12.9716 77.5946 13 77 =
      calculateDistance 13 77 12.9716 77.5946 :=
  claim_C9_distance_refl_and_symm 12.9716 77.5946 12.9716 77.5946 13 77
    (by norm_num) (by norm_num) (by norm_num) (by norm_num)
    (by norm_num) (by norm_num)

/-- C4: verifying a freshly issued, unexpired token of each kind returns
the issued payload, and with pairwise-distinct secrets a token of one
kind never verifies under another kind's verifier. -/
theorem claim_C4_token_roundtrip_and_kind_isolation
    (cfg : Config) (pa : AccessTokenPayload) (pr : RefreshTokenPayload)
    (pl : LocationTokenPayload) (iat now : Nat)
    (hna : now < iat + cfg.accessExpiry)
    (hnr : now < iat + cfg.refreshExpiry)
    (hnl : now < iat + cfg.locationExpiry)
    (har : cfg.accessSecret ≠ cfg.refreshSecret)
    (hal : cfg.accessSecret ≠ cfg.locationSecret)
    (hrl : cfg.refreshSecret ≠ cfg.locationSecret) :
    (verifyAccessToken cfg (generateAccessToken cfg pa iat) now =
        .ok (.access pa) ∧
     verifyRefreshToken cfg (generateRefreshToken cfg pr iat) now =
        .ok (.refresh pr) ∧
     verifyLocationToken cfg (generateLocationToken cfg pl iat) now =
        .ok (.location pl)) ∧
    (verifyAccessToken cfg (generateRefreshToken cfg pr iat) now =
        .error .invalidOrExpired ∧
     verifyAccessToken cfg (generateLocationToken cfg pl iat) now =
        .error .invalidOrExpired ∧
     verifyRefreshToken cfg (generateAccessToken cfg pa iat) now =
        .error .invalidOrExpired ∧
     verifyRefreshToken cfg (generateLocationToken cfg pl iat) now =
        .error .invalidOrExpired ∧
     verifyLocationToken cfg (generateAccessToken cfg pa iat) now =
        .error .invalidOrExpired ∧
     verifyLocationToken cfg (generateRefreshToken cfg pr iat) now =
        .error .invalidOrExpired) := by
  refine ⟨⟨?_, ?_, ?_⟩, ?_, ?_, ?_, ?_, ?_, ?_⟩
  · simp [verifyAccessToken, generateAccessToken, hna]
  · simp [verifyRefreshToken, generateRefreshToken, hnr]
  · simp [verifyLocationToken, generateLocationToken, hnl]
  · simp [verifyAccessToken, generateRefreshToken, Ne.symm har]
  · simp [verifyAccessToken, generateLocationToken, Ne.symm hal]
  · simp [verifyRefreshToken, generateAccessToken, har]
  · simp [verifyRefreshToken, generateLocationToken, Ne.symm hrl]
  · simp [verifyLocationToken, generateAccessToken, hal]
  · simp [verifyLocationToken, generateRefreshToken, hrl]

/-- Witness for C4 at a concrete configuration and concrete payloads. -/
theorem claim_C4_token_roundtrip_and_kind_isolation_witness :
    (verifyAccessToken cfgW
        (generateAccessToken cfgW ⟨"t1", "u1", .FREE⟩ 0) 10 =
        .ok (.access ⟨"t1", "u1", .FREE⟩) ∧
     verifyRefreshToken cfgW
        (generateRefreshToken cfgW ⟨"t1", "tok1"⟩ 0) 10 =
        .ok (.refresh ⟨"t1", "tok1"⟩) ∧
     verifyLocationToken cfgW
        (generateLocationToken cfgW ⟨"t1", "e1", 1, 2⟩ 0) 10 =
        .ok (.location ⟨"t1", "e1", 1, 2⟩)) ∧
    (verifyAccessToken cfgW
        (generateRefreshToken cfgW ⟨"t1", "tok1"⟩ 0) 10 =
        .error .invalidOrExpired ∧
     verifyAccessToken cfgW
        (generateLocationToken cfgW ⟨"t1", "e1", 1, 2⟩ 0) 10 =
        .error .invalidOrExpired ∧
     verifyRefreshToken cfgW
        (generateAccessToken cfgW ⟨"t1", "u1", .FREE⟩ 0) 10 =
        .error .invalidOrExpired ∧
     verifyRefreshToken cfgW
        (generateLocationToken cfgW ⟨"t1", "e1", 1, 2⟩ 0) 10 =
        .error .invalidOrExpired ∧
     verifyLocationToken cfgW
        (generateAccessToken cfgW ⟨"t1", "u1", .FREE⟩ 0) 10 =
        .error .invalidOrExpired ∧
     verifyLocationToken cfgW
        (generateRefreshToken cfgW ⟨"t1", "tok1"⟩ 0) 10 =
        .error .invalidOrExpired) :=
  claim_C4_token_roundtrip_and_kind_isolation cfgW
    ⟨"t1", "u1", .FREE⟩ ⟨"t1", "tok1"⟩ ⟨"t1", "e1", 1, 2⟩ 0 10
    (by decide) (by decide) (by decide)
    (by decide) (by decide) (by decide)

/-! ## Refresh session store (C6, C1, C8) -/

/-- C6 (amended): stored-session validation fails with the
invalid-or-revoked error when no row matches the hash or when the row is
revoked, fails with the expired error when the current time is strictly
past the expiry instant, and succeeds exactly when a row matches, is not
revoked and the current time is at most the expiry instant. -/
theorem claim_C6_validate_stored_session (db : DB) (h : Sha256Digest)
    (now : Nat) :
    (db.refreshSessions.find? (fun s => s.tokenHash = h) = none →
      validateStoredSession db h now = .error .invalidOrRevokedRefresh) ∧
    (∀ s, db.refreshSessions.find? (fun s => s.tokenHash = h) = some s →
      s.isRevoked = true →
      validateStoredSession db h now = .error .invalidOrRevokedRefresh) ∧
    (∀ s, db.refreshSessions.find? (fun s => s.tokenHash = h) = some s →
      s.isRevoked = false → s.expiresAt < now →
      validateStoredSession db h now = .error .refreshExpired) ∧
    (∀ s, validateStoredSession db h now = .ok s ↔
      (db.refreshSessions.find? (fun s => s.tokenHash = h) = some s ∧
       s.isRevoked = false ∧ now ≤ s.expiresAt)) := by
  refine ⟨?_, ?_, ?_, ?_⟩
  · intro hf
    simp [validateStoredSession, hf]
  · intro s hf hrev
    simp [validateStoredSession, hf, hrev]
  · intro s hf hrev hexp
    simp [validateStoredSession, hf, hrev, hexp]
  · intro s
    constructor
    · intro hok
      unfold validateStoredSession at hok
      cases hf : db.refreshSessions.find? (fun s => s.tokenHash = h) with
      | none => rw [hf] at hok; cases hok
      | some s' =>
        rw [hf] at hok
        by_cases hrev : s'.isRevoked
        · simp only [if_pos hrev] at hok; cases hok
        · simp only [if_neg hrev] at hok
          by_cases hexp : s'.expiresAt < now
          · simp only [if_pos hexp] at hok; cases hok
          · simp only [if_neg hexp] at hok
            injection hok with he
            subst he
            exact ⟨rfl, by simpa using hrev, by omega⟩
    · rintro ⟨hf, hr, hn⟩
      unfold validateStoredSession
      rw [hf]
      simp only [hr]
      rw [if_neg (by omega : ¬ s.expiresAt < now)]
      simp

/-- Counterexample to C6 as stated: at `now` equal to the row's expiry
timestamp (current time ≥ expiry), validation does not fail with the
expired error — it succeeds, because the code tests
`storedToken.expiresAt < new Date()` strictly. -/
theorem claim_C6_validate_counterexample :
    sessionC.expiresAt ≤ 1000 ∧
    validateStoredSession dbC (hashToken tokenC) 1000 ≠
      .error .refreshExpired ∧
    validateStoredSession dbC (hashToken tokenC) 1000 = .ok sessionC := by
  refine ⟨by decide, by decide, by decide⟩

/-- Witness for C6 (amended): one strictly-late call fails expired, one
in-window call succeeds. -/
theorem claim_C6_validate_stored_session_witness :
    validateStoredSession dbC (hashToken tokenC) 1001 =
      .error .refreshExpired ∧
    validateStoredSession dbC (hashToken tokenC) 500 = .ok sessionC := by
  constructor
  · exact (claim_C6_validate_stored_session dbC (hashToken tokenC) 1001).2.2.1
      sessionC (by decide) (by decide) (by decide)
  · exact ((claim_C6_validate_stored_session dbC (hashToken tokenC) 500).2.2.2
      sessionC).mpr ⟨by decide, by decide, by decide⟩

/-- C1: the two rotation writes are not one logical transaction.  With a
valid presented session, when the create of the replacement session
fails after the revoke update committed, `refreshAccessToken` fails as a
whole — but the presented session is left revoked, so its validity is
NOT left unchanged.  (The last conjunct shows the success path for
contrast: with no injected failure both writes happen before
returning.) -/
theorem claim_C1_rotation_not_atomic :
    validateStoredSession dbC1 (hashToken tokenC) 10 = .ok sessionC1 ∧
    sessionC1.isRevoked = false ∧
    (refreshAccessToken cfgW tokenC 10 "sid2" false true dbC1).1 =
      .error .failedToRefreshToken ∧
    (refreshAccessToken cfgW tokenC 10 "sid2" false true dbC1).2.refreshSessions =
      [{ sessionC1 with isRevoked := true }] ∧
    ((refreshAccessToken cfgW tokenC 10 "sid2" false false dbC1).2.refreshSessions.map
        (fun r => r.isRevoked)) = [true, false] := by
  refine ⟨by decide, by decide, by decide, by decide, by decide⟩

/-- C8: every operation that creates a RefreshSession row — tenant
registration, login, and refresh — stores in `tokenHash` the one-way
hash of the refresh token it issues to the caller, never the raw token
(the field's type is the digest type, and its value is `hashToken` of
the issued token); no other session rows are added. -/
theorem claim_C8_only_hashes_persisted :
    (∀ (cfg : Config) (input : RegisterTenantInput) (now : Nat)
       (ntid tuid : String) (db : DB) (res : LoginResponse) (db' : DB),
      registerTenant cfg input now ntid tuid db = (.ok res, db') →
      db'.refreshSessions = db.refreshSessions ++
        [{ id := db.refreshSessions.length, tenantId := res.tenant.id
           tokenHash := hashToken res.refreshToken
           expiresAt := now + cfg.refreshExpiry, isRevoked := false }]) ∧
    (∀ (cfg : Config) (username password : String) (now : Nat)
       (tuid : String) (db : DB) (res : LoginResponse) (db' : DB),
      loginTenant cfg username password now tuid db = (.ok res, db') →
      db'.refreshSessions = db.refreshSessions ++
        [{ id := db.refreshSessions.length, tenantId := res.tenant.id
           tokenHash := hashToken res.refreshToken
           expiresAt := now + cfg.refreshExpiry, isRevoked := false }]) ∧
    (∀ (cfg : Config) (token : Token) (now : Nat) (tuid : String)
       (rf cf : Bool) (db : DB) (res : LoginResponse) (db' : DB),
      refreshAccessToken cfg token now tuid rf cf db = (.ok res, db') →
      ∃ sid, db'.refreshSessions =
        (db.refreshSessions.map (fun (r : RefreshSession) =>
          if r.id = sid then { r with isRevoked := true } else r)) ++
        [{ id := db.refreshSessions.length, tenantId := res.tenant.id
           tokenHash := hashToken res.refreshToken
           expiresAt := now + cfg.refreshExpiry, isRevoked := false }]) := by
  refine ⟨?_, ?_, ?_⟩
  · intro cfg input now ntid tuid db res db' h
    unfold registerTenant at h
    by_cases h1 : db.tenants.any (fun t => t.username = input.username)
    · simp [h1] at h
    · by_cases h2 : db.tenants.any (fun t => t.gst = input.gst)
      · simp [h1, h2] at h
      · simp only [h1, h2, if_false, Bool.false_eq_true, if_neg] at h
        obtain ⟨hres, hdb⟩ := Prod.mk.injEq .. ▸ h
        injection hres with hres
        subst hres
        subst hdb
        rfl
  · intro cfg username password now tuid db res db' h
    unfold loginTenant at h
    cases hf : db.tenants.find? (fun t => t.username = username) with
    | none => rw [hf] at h; simp at h
    | some tenant =>
      rw [hf] at h
      by_cases hpw : comparePassword password tenant.password
      · simp only [hpw, not_true, if_neg, not_false_iff] at h
        obtain ⟨hres, hdb⟩ := Prod.mk.injEq .. ▸ h
        injection hres with hres
        subst hres
        subst hdb
        rfl
      · simp [hpw] at h
  · intro cfg token now tuid rf cf db res db' h
    unfold refreshAccessToken at h
    cases hv : verifyRefreshToken cfg token now with
    | error e => simp only [hv] at h; simp at h
    | ok payload =>
      simp only [hv] at h
      cases hval : validateStoredSession db (hashToken token) now with
      | error e => simp only [hval] at h; simp at h
      | ok storedToken =>
        simp only [hval] at h
        by_cases hmm : storedToken.tenantId = payload.tenantId
        case neg => simp [hmm] at h
        case pos =>
          rw [if_neg (by simp [hmm])] at h
          cases rf with
          | true => simp at h
          | false =>
            rw [if_neg Bool.false_ne_true] at h
            cases htf : db.tenants.find?
                (fun (t : Tenant) => t.id = storedToken.tenantId) with
            | none => simp only [htf] at h; simp at h
            | some tenant =>
              simp only [htf] at h
              cases cf with
              | true => simp at h
              | false =>
                rw [if_neg Bool.false_ne_true] at h
                obtain ⟨hres, hdb⟩ := Prod.mk.injEq .. ▸ h
                injection hres with hres
                subst hres
                subst hdb
                refine ⟨storedToken.id, ?_⟩
                simp [Tenant.public, List.length_map]

/-- Witness for C8: a concrete registration, login and refresh, each
appending exactly one session row holding the hash of the token it
returned. -/
theorem claim_C8_only_hashes_persisted_witness :
    (dbRegW.refreshSessions = db0.refreshSessions ++
      [{ id := db0.refreshSessions.length, tenantId := resRegW.tenant.id
         tokenHash := hashToken resRegW.refreshToken
         expiresAt := 0 + cfgW.refreshExpiry, isRevoked := false }]) ∧
    (dbLogW.refreshSessions = dbRegW.refreshSessions ++
      [{ id := dbRegW.refreshSessions.length, tenantId := resLogW.tenant.id
         tokenHash := hashToken resLogW.refreshToken
         expiresAt := 5 + cfgW.refreshExpiry, isRevoked := false }]) ∧
    (∃ sid, dbRefW.refreshSessions =
      (dbRegW.refreshSessions.map (fun (r : RefreshSession) =>
        if r.id = sid then { r with isRevoked := true } else r)) ++
      [{ id := dbRegW.refreshSessions.length, tenantId := resRefW.tenant.id
         tokenHash := hashToken resRefW.refreshToken
         expiresAt := 10 + cfgW.refreshExpiry, isRevoked := false }]) :=
  ⟨claim_C8_only_hashes_persisted.1 cfgW regInputW 0 "t9" "uuidR" db0
      resRegW dbRegW (by rfl),
   claim_C8_only_hashes_persisted.2.1 cfgW "u1" "pw" 5 "uuidL" dbRegW
      resLogW dbLogW (by rfl),
   claim_C8_only_hashes_persisted.2.2 cfgW resRegW.refreshToken 10 "uuidR2"
      false false dbRegW resRefW dbRefW (by rfl)⟩

/-- Exhaustive shape of one `checkIn` run: every error path returns the
store untouched, and the success path appends exactly one attendance row
stamped `now` for the requested employee, and only when no attendance at
or after the start of the current day already existed for them. -/
theorem checkIn_cases (cfg : Config) (input : CheckInInput)
    (oracle : Except Unit RekognitionResponse) (now : Nat) (db : DB) :
    (∃ e, checkIn cfg input oracle now db = (.error e, db)) ∨
    (∃ a, checkIn cfg input oracle now db =
        (.ok a, { db with attendances := db.attendances ++ [a] }) ∧
      a.checkInTime = now ∧ a.employeeId = input.employeeId ∧
      db.attendances.find? (fun b =>
        b.employeeId = input.employeeId &&
        now / 86400 * 86400 ≤ b.checkInTime) = none) := by
  unfold checkIn
  cases hv : verifyLocationToken cfg input.locationToken now with
  | error e => exact Or.inl ⟨_, rfl⟩
  | ok claims =>
    cases claims with
    | access p => exact Or.inl ⟨_, rfl⟩
    | refresh p => exact Or.inl ⟨_, rfl⟩
    | location p =>
      try simp only []
      by_cases hid : p.employeeId ≠ input.employeeId
      · rw [if_pos hid]
        exact Or.inl ⟨_, rfl⟩
      · rw [if_neg hid]
        by_cases hemb : ¬ isValidEmbedding input.embedding
        · rw [if_pos hemb]
          exact Or.inl ⟨_, rfl⟩
        · rw [if_neg hemb]
          cases hfind : db.employees.find?
              (fun e => e.id = input.employeeId) with
          | none => exact Or.inl ⟨_, rfl⟩
          | some employee =>
            try simp only []
            by_cases hten : employee.tenantId ≠ p.tenantId
            · rw [if_pos hten]
              exact Or.inl ⟨_, rfl⟩
            · rw [if_neg hten]
              cases htfind : db.tenants.find?
                  (fun t => t.id = employee.tenantId) with
              | none => exact Or.inl ⟨_, rfl⟩
              | some tenant =>
                try simp only []
                by_cases hplan : tenant.planType = .PAID
                · rw [if_pos hplan]
                  cases hcf : compareFaces cfg.similarityThreshold oracle with
                  | error u => exact Or.inl ⟨_, rfl⟩
                  | ok r =>
                    try simp only []
                    by_cases hm : ¬ r.isMatch
                    · rw [if_pos hm]
                      exact Or.inl ⟨_, rfl⟩
                    · rw [if_neg hm]
                      cases haf : db.attendances.find? (fun a =>
                          a.employeeId = input.employeeId &&
                          now / 86400 * 86400 ≤ a.checkInTime) with
                      | some x => exact Or.inl ⟨_, rfl⟩
                      | none =>
                        refine Or.inr ⟨_, rfl, rfl, ?_, haf ▸ rfl⟩
                        simpa using List.find?_some hfind
                · rw [if_neg hplan]
                  cases haf : db.attendances.find? (fun a =>
                      a.employeeId = input.employeeId &&
                      now / 86400 * 86400 ≤ a.checkInTime) with
                  | some x => exact Or.inl ⟨_, rfl⟩
                  | none =>
                    refine Or.inr ⟨_, rfl, rfl, ?_, haf ▸ rfl⟩
                    simpa using List.find?_some hfind

/-- C10: whenever `checkIn` fails — for any reason — the attendance
store is returned unchanged: the insert is the final step, so no error
path creates a record. -/
theorem claim_C10_error_paths_create_nothing (cfg : Config)
    (input : CheckInInput) (oracle : Except Unit RekognitionResponse)
    (now : Nat) (db : DB) (e : AppErr)
    (h : (checkIn cfg input oracle now db).1 = .error e) :
    (checkIn cfg input oracle now db).2 = db := by
  rcases checkIn_cases cfg input oracle now db with ⟨e', hE⟩ | ⟨a, hEq, _, _, _⟩
  · rw [hE]
  · rw [hEq] at h
    simp at h

/-- C7: redeeming a location token whose embedded employeeId differs
from the request's employeeId fails with the employee-mismatch error and
leaves the store untouched. -/
theorem claim_C7_employee_mismatch_rejected (cfg : Config)
    (input : CheckInInput) (oracle : Except Unit RekognitionResponse)
    (now : Nat) (db : DB) (p : LocationTokenPayload)
    (hv : verifyLocationToken cfg input.locationToken now = .ok (.location p))
    (hne : p.employeeId ≠ input.employeeId) :
    checkIn cfg input oracle now db = (.error .employeeIdMismatch, db) := by
  unfold checkIn
  simp only [hv]
  rw [if_pos hne]

/-- One `checkIn` step preserves the at-most-one-per-day invariant,
provided no stored record postdates the current instant. -/
theorem checkIn_preserves_attendanceUnique (cfg : Config)
    (input : CheckInInput) (oracle : Except Unit RekognitionResponse)
    (now : Nat) (db : DB)
    (hinv : attendanceUnique db.attendances)
    (hhist : ∀ a ∈ db.attendances, a.checkInTime ≤ now) :
    attendanceUnique (checkIn cfg input oracle now db).2.attendances ∧
    (∀ a ∈ (checkIn cfg input oracle now db).2.attendances,
      a.checkInTime ≤ now) := by
  rcases checkIn_cases cfg input oracle now db with
    ⟨e, hE⟩ | ⟨a, hEq, hT, hEmp, hNone⟩
  · rw [hE]
    exact ⟨hinv, hhist⟩
  · rw [hEq]
    simp only []
    constructor
    · unfold attendanceUnique
      rw [List.pairwise_append]
      refine ⟨hinv, List.pairwise_singleton _ _, ?_⟩
      intro b hb a' ha'
      simp only [List.mem_singleton] at ha'
      subst ha'
      intro hemp
      have hb' := List.find?_eq_none.mp hNone b hb
      simp only [Bool.and_eq_true, decide_eq_true_eq, not_and] at hb'
      have hlt := hb' (hemp.trans hEmp)
      rw [hT]
      omega
    · intro x hx
      rcases List.mem_append.mp hx with hx | hx
      · exact hhist x hx
      · simp only [List.mem_singleton] at hx
        subst hx
        omega

/-- Running any chain of non-concurrent `checkIn` calls at nondecreasing
instants preserves the at-most-one-per-day invariant. -/
theorem runCheckIns_attendanceUnique (cfg : Config) :
    ∀ (calls : List CheckInCall) (db : DB) (t : Nat),
      attendanceUnique db.attendances →
      (∀ a ∈ db.attendances, a.checkInTime ≤ t) →
      List.Chain (fun x y => x ≤ y) t (calls.map (fun c => c.now)) →
      attendanceUnique (runCheckIns cfg calls db).attendances := by
  intro calls
  induction calls with
  | nil =>
    intro db t hinv _ _
    exact hinv
  | cons c rest ih =>
    intro db t hinv hhist hchain
    simp only [List.map_cons] at hchain
    cases hchain with
    | cons hle hchain2 =>
      have hstep := checkIn_preserves_attendanceUnique cfg c.input c.oracle
        c.now db hinv (fun a ha => le_trans (hhist a ha) hle)
      exact ih (checkIn cfg c.input c.oracle c.now db).2 c.now
        hstep.1 hstep.2 hchain2

/-- C3: (1) when an attendance for the same employee already exists on
the same server-local calendar day, `checkIn` creates nothing and cannot
succeed; (2) when, in addition, every earlier guard of the redemption
passes, the attempt fails precisely with the already-checked-in error;
(3) after any sequence of non-concurrent `checkIn` calls at
nondecreasing instants starting from the empty store, at most one
attendance exists per (employeeId, calendar day). -/
theorem claim_C3_at_most_one_checkin_per_day :
    (∀ (cfg : Config) (input : CheckInInput)
       (oracle : Except Unit RekognitionResponse) (now : Nat) (db : DB)
       (b : Attendance),
      b ∈ db.attendances → b.employeeId = input.employeeId →
      b.checkInTime / 86400 = now / 86400 →
      (checkIn cfg input oracle now db).2 = db ∧
      ∀ a, (checkIn cfg input oracle now db).1 ≠ .ok a) ∧
    (∀ (cfg : Config) (input : CheckInInput)
       (oracle : Except Unit RekognitionResponse) (now : Nat) (db : DB)
       (p : LocationTokenPayload) (employee : Employee) (tenant : Tenant)
       (b : Attendance),
      verifyLocationToken cfg input.locationToken now = .ok (.location p) →
      p.employeeId = input.employeeId →
      isValidEmbedding input.embedding = true →
      db.employees.find? (fun e => e.id = input.employeeId) = some employee →
      employee.tenantId = p.tenantId →
      db.tenants.find? (fun t => t.id = employee.tenantId) = some tenant →
      (tenant.planType = .PAID →
        ∃ r, compareFaces cfg.similarityThreshold oracle = .ok r ∧
          r.isMatch = true) →
      b ∈ db.attendances → b.employeeId = input.employeeId →
      b.checkInTime / 86400 = now / 86400 →
      checkIn cfg input oracle now db = (.error .alreadyCheckedIn, db)) ∧
    (∀ (cfg : Config) (calls : List CheckInCall) (t : Nat),
      List.Chain (fun x y => x ≤ y) t (calls.map (fun c => c.now)) →
      attendanceUnique (runCheckIns cfg calls db0).attendances) := by
  have hfound : ∀ (input : CheckInInput) (now : Nat) (db : DB)
      (b : Attendance), b ∈ db.attendances →
      b.employeeId = input.employeeId →
      b.checkInTime / 86400 = now / 86400 →
      db.attendances.find? (fun a =>
        a.employeeId = input.employeeId &&
        now / 86400 * 86400 ≤ a.checkInTime) ≠ none := by
    intro input now db b hb hbe hbd hnone
    have hb' := List.find?_eq_none.mp hnone b hb
    simp only [Bool.and_eq_true, decide_eq_true_eq, not_and] at hb'
    exact (hb' hbe) (by omega)
  refine ⟨?_, ?_, ?_⟩
  · intro cfg input oracle now db b hb hbe hbd
    rcases checkIn_cases cfg input oracle now db with
      ⟨e, hE⟩ | ⟨a, hEq, _, _, hNone⟩
    · rw [hE]
      exact ⟨rfl, by simp⟩
    · exact absurd hNone (hfound input now db b hb hbe hbd)
  · intro cfg input oracle now db p employee tenant b hv hid hemb hfind
      hten htfind hface hb hbe hbd
    unfold checkIn
    simp only [hv]
    rw [if_neg (fun hne => hne hid), if_neg (fun hne => hne hemb)]
    simp only [hfind]
    rw [if_neg (fun hne => hne hten)]
    simp only [htfind]
    cases hfa : db.attendances.find? (fun a =>
        a.employeeId = input.employeeId &&
        now / 86400 * 86400 ≤ a.checkInTime) with
    | none => exact absurd hfa (hfound input now db b hb hbe hbd)
    | some x =>
      by_cases hplan : tenant.planType = .PAID
      · obtain ⟨r, hcf, hm⟩ := hface hplan
        rw [if_pos hplan]
        simp only [hcf]
        rw [if_neg (fun hn => hn hm)]
      · rw [if_neg hplan]
  · intro cfg calls t hchain
    exact runCheckIns_attendanceUnique cfg calls db0 t List.Pairwise.nil
      (by intro a ha; cases ha) hchain

/-- Witness for C3: with a same-day attendance on file, a second,
otherwise-valid check-in at t = 200 is rejected as already-checked-in
and the store is unchanged; and a concrete two-call run preserves the
per-day uniqueness invariant. -/
theorem claim_C3_at_most_one_checkin_per_day_witness :
    ((checkIn cfgW inpE1 (.error ()) 200 dbC3).2 = dbC3 ∧
      ∀ a, (checkIn cfgW inpE1 (.error ()) 200 dbC3).1 ≠ .ok a) ∧
    checkIn cfgW inpE1 (.error ()) 200 dbC3 =
      (.error .alreadyCheckedIn, dbC3) ∧
    attendanceUnique (runCheckIns cfgW
      [⟨inpE1, .error (), 100⟩, ⟨inpE1, .error (), 200⟩] db0).attendances :=
  ⟨claim_C3_at_most_one_checkin_per_day.1 cfgW inpE1 (.error ()) 200 dbC3
      attPrev (by decide) (by decide) (by decide),
   claim_C3_at_most_one_checkin_per_day.2.1 cfgW inpE1 (.error ()) 200 dbC3
      ⟨"t1", "e1", 10, 20⟩ empE1 tenantC1 attPrev
      (by decide) (by decide) (by decide) (by decide) (by decide) (by decide)
      (fun hp => absurd hp (by decide))
      (by decide) (by decide) (by decide),
   claim_C3_at_most_one_checkin_per_day.2.2 cfgW
      [⟨inpE1, .error (), 100⟩, ⟨inpE1, .error (), 200⟩] 0
      (List.Chain.cons (by decide) (List.Chain.cons (by decide)
        List.Chain.nil))⟩

/-- `v || 0` is the identity on an always-present similarity value. -/
theorem jsOrZero_some (q : ℚ) (h : q ≠ 0) : jsOrZero (some q) = q := by
  simp [jsOrZero, h]

/-- When `compareFaces` reports a match, the similarity it reports is at
least the threshold, and is non-zero (the truthiness guard). -/
theorem compareFaces_ok_isMatch (threshold : ℚ)
    (resp : Except Unit RekognitionResponse) (r : FaceComparisonResult)
    (h : compareFaces threshold resp = .ok r) (hm : r.isMatch = true) :
    threshold ≤ r.similarity ∧ r.similarity ≠ 0 := by
  unfold compareFaces at h
  cases resp with
  | error u => cases h
  | ok resp2 =>
    cases hfm : resp2.faceMatches with
    | none =>
      simp only [hfm] at h
      injection h with h
      subst h
      simp at hm
    | some l =>
      cases l with
      | nil =>
        simp only [hfm] at h
        injection h with h
        subst h
        simp at hm
      | cons m rest =>
        simp only [hfm] at h
        cases hs : m.similarity with
        | none =>
          simp only [hs] at h
          injection h with h
          subst h
          simp at hm
        | some s =>
          simp only [hs] at h
          by_cases h0 : s ≠ 0
          · rw [if_pos h0] at h
            injection h with h
            subst h
            simp only [decide_eq_true_eq] at hm
            exact ⟨hm, h0⟩
          · rw [if_neg h0] at h
            injection h with h
            subst h
            simp at hm

/-- C5: for a check-in that reaches the identity-verification step, a
FREE tenant's successful check-in records no confidence; a PAID tenant's
check-in succeeds only when the oracle reports a match whose similarity
is at least the configured threshold, in which case that similarity is
recorded, and an oracle error or a reported non-match fails the whole
check-in with the face-verification error. -/
theorem claim_C5_confidence_policy (cfg : Config) (input : CheckInInput)
    (oracle : Except Unit RekognitionResponse) (now : Nat) (db : DB)
    (p : LocationTokenPayload) (employee : Employee) (tenant : Tenant)
    (hv : verifyLocationToken cfg input.locationToken now = .ok (.location p))
    (hid : p.employeeId = input.employeeId)
    (hemb : isValidEmbedding input.embedding = true)
    (hfind : db.employees.find? (fun e => e.id = input.employeeId) =
      some employee)
    (hten : employee.tenantId = p.tenantId)
    (htfind : db.tenants.find? (fun t => t.id = employee.tenantId) =
      some tenant) :
    (tenant.planType = .FREE →
      ∀ a, (checkIn cfg input oracle now db).1 = .ok a →
        a.matchConfidence = none) ∧
    (tenant.planType = .PAID →
      (∀ a, (checkIn cfg input oracle now db).1 = .ok a →
        ∃ r, compareFaces cfg.similarityThreshold oracle = .ok r ∧
          r.isMatch = true ∧ cfg.similarityThreshold ≤ r.similarity ∧
          a.matchConfidence = some r.similarity) ∧
      (∀ u, compareFaces cfg.similarityThreshold oracle = .error u →
        checkIn cfg input oracle now db =
          (.error .faceVerificationFailed, db)) ∧
      (∀ r, compareFaces cfg.similarityThreshold oracle = .ok r →
        r.isMatch = false →
        checkIn cfg input oracle now db =
          (.error .faceVerificationFailed, db))) := by
  have hred : checkIn cfg input oracle now db =
      (match (if tenant.planType = .PAID then
          match compareFaces cfg.similarityThreshold oracle with
          | .error _ => .error .faceVerificationFailed
          | .ok comparisonResult =>
            if ¬ comparisonResult.isMatch then
              .error .faceVerificationFailed
            else .ok (some (jsOrZero (some comparisonResult.similarity)))
        else (.ok none : Except AppErr (Option ℚ))) with
      | .error e => (.error e, db)
      | .ok matchConfidence =>
        match db.attendances.find? (fun a =>
            a.employeeId = input.employeeId &&
            now / 86400 * 86400 ≤ a.checkInTime) with
        | some _ => (.error .alreadyCheckedIn, db)
        | none =>
          (.ok { id := db.attendances.length, tenantId := employee.tenantId
                 employeeId := employee.id, photoUrl := input.photoUrl
                 embedding := input.embedding, checkInTime := now
                 matchConfidence := matchConfidence },
           { db with attendances := db.attendances ++
              [{ id := db.attendances.length, tenantId := employee.tenantId
                 employeeId := employee.id, photoUrl := input.photoUrl
                 embedding := input.embedding, checkInTime := now
                 matchConfidence := matchConfidence }] })) := by
    unfold checkIn
    simp only [hv]
    rw [if_neg (fun hne => hne hid), if_neg (fun hne => hne hemb)]
    simp only [hfind]
    rw [if_neg (fun hne => hne hten)]
    simp only [htfind]
  constructor
  · intro hfree a hok
    rw [hred] at hok
    rw [if_neg (by simp [hfree])] at hok
    cases hfa : db.attendances.find? (fun a =>
        a.employeeId = input.employeeId &&
        now / 86400 * 86400 ≤ a.checkInTime) with
    | some x => simp only [hfa] at hok; cases hok
    | none =>
      simp only [hfa] at hok
      injection hok with hok
      subst hok
      rfl
  · intro hpaid
    refine ⟨?_, ?_, ?_⟩
    · intro a hok
      rw [hred, if_pos hpaid] at hok
      cases hcf : compareFaces cfg.similarityThreshold oracle with
      | error u => simp only [hcf] at hok; cases hok
      | ok r =>
        simp only [hcf] at hok
        by_cases hm : ¬ r.isMatch
        · rw [if_pos hm] at hok; cases hok
        · rw [if_neg hm] at hok
          have hm2 : r.isMatch = true := by
            revert hm; cases r.isMatch <;> simp
          obtain ⟨hle, hne0⟩ :=
            compareFaces_ok_isMatch cfg.similarityThreshold oracle r hcf hm2
          cases hfa : db.attendances.find? (fun a =>
              a.employeeId = input.employeeId &&
              now / 86400 * 86400 ≤ a.checkInTime) with
          | some x => simp only [hfa] at hok; cases hok
          | none =>
            simp only [hfa] at hok
            injection hok with hok
            subst hok
            exact ⟨r, rfl, hm2, hle, by simp [jsOrZero_some r.similarity hne0]⟩
    · intro u hcf
      rw [hred, if_pos hpaid]
      simp only [hcf]
    · intro r hcf hm
      rw [hred, if_pos hpaid]
      simp only [hcf]
      rw [if_pos (by simp [hm])]

/-- Witness for C5: a FREE check-in stores no confidence; a PAID
check-in against a 90-similarity oracle stores 90; a PAID check-in
against an erroring oracle or a below-threshold oracle fails with the
face-verification error. -/
theorem claim_C5_confidence_policy_witness :
    attF.matchConfidence = none ∧
    (∃ r, compareFaces cfgW.similarityThreshold orcGood = .ok r ∧
      r.isMatch = true ∧ cfgW.similarityThreshold ≤ r.similarity ∧
      attP.matchConfidence = some r.similarity) ∧
    checkIn cfgW inpE1 (.error ()) 50 dbC5P =
      (.error .faceVerificationFailed, dbC5P) ∧
    checkIn cfgW inpE1 orcBad 50 dbC5P =
      (.error .faceVerificationFailed, dbC5P) :=
  ⟨(claim_C5_confidence_policy cfgW inpE1 (.error ()) 50 dbC5F
      ⟨"t1", "e1", 10, 20⟩ empE1 tenantC1 (by decide) (by decide) (by decide)
      (by decide) (by decide) (by decide)).1 (by decide) attF (by decide),
   (claim_C5_confidence_policy cfgW inpE1 orcGood 50 dbC5P
      ⟨"t1", "e1", 10, 20⟩ empE1 tenantP (by decide) (by decide) (by decide)
      (by decide) (by decide) (by decide)).2 (by decide) |>.1 attP (by decide),
   (claim_C5_confidence_policy cfgW inpE1 (.error ()) 50 dbC5P
      ⟨"t1", "e1", 10, 20⟩ empE1 tenantP (by decide) (by decide) (by decide)
      (by decide) (by decide) (by decide)).2 (by decide) |>.2.1 () (by decide),
   (claim_C5_confidence_policy cfgW inpE1 orcBad 50 dbC5P
      ⟨"t1", "e1", 10, 20⟩ empE1 tenantP (by decide) (by decide) (by decide)
      (by decide) (by decide) (by decide)).2 (by decide) |>.2.2
      ⟨false, 99, 50⟩ (by decide) (by decide)⟩

/-- C2: with a valid employee, its owning tenant and valid submitted
coordinates, a point within the configured radius yields a denial with
no location token, and a point outside the radius yields a token that —
verified any time before its expiry — carries exactly the owning
tenant's id and the request's employeeId (and the submitted
coordinates). -/
theorem claim_C2_location_check_token (cfg : Config)
    (input : LocationCheckInput) (now : Nat) (db : DB)
    (employee : Employee) (tenant : Tenant)
    (hval : validateCoordinates input.latitude input.longitude = true)
    (hfind : db.employees.find? (fun e => e.id = input.employeeId) =
      some employee)
    (htfind : db.tenants.find? (fun t => t.id = employee.tenantId) =
      some tenant) :
    (isWithinRadius input.latitude input.longitude tenant.latitude
        tenant.longitude cfg.allowedCheckInRadius →
      checkEmployeeLocation cfg input now db = .ok
        { success := false, tenantId := none, tenantName := none
          address := none, locationToken := none
          message := "You are within the office premises. Please proceed with check-in." }) ∧
    (¬ isWithinRadius input.latitude input.longitude tenant.latitude
        tenant.longitude cfg.allowedCheckInRadius →
      ∃ tok, checkEmployeeLocation cfg input now db = .ok
        { success := true, tenantId := some tenant.id
          tenantName := some tenant.tenantName, address := some tenant.address
          locationToken := some tok
          message := "Location verified. You are outside office premises." } ∧
        ∀ now2, now2 < now + cfg.locationExpiry →
          verifyLocationToken cfg tok now2 = .ok (.location
            { tenantId := tenant.id, employeeId := input.employeeId
              latitude := input.latitude, longitude := input.longitude })) := by
  have hEmpId : employee.id = input.employeeId := by
    simpa using List.find?_some hfind
  unfold checkEmployeeLocation
  rw [if_neg (fun hn => hn hval)]
  simp only [hfind, htfind]
  constructor
  · intro hin
    rw [if_pos hin]
  · intro hout
    rw [if_neg hout]
    refine ⟨_, rfl, ?_⟩
    intro now2 hn2
    simp only [verifyLocationToken, generateLocationToken]
    rw [if_pos trivial, if_pos hn2, hEmpId]

/-- Witness for C2: at the office itself the check is denied with no
token; at (0°, 180°) a token is issued that verifies back to the owning
tenant and the requesting employee. -/
theorem claim_C2_location_check_token_witness :
    checkEmployeeLocation cfgW inpLocIn 0 dbLoc = .ok
      { success := false, tenantId := none, tenantName := none
        address := none, locationToken := none
        message := "You are within the office premises. Please proceed with check-in." } ∧
    (∃ tok, checkEmployeeLocation cfgW inpLocOut 0 dbLoc = .ok
      { success := true, tenantId := some tenant00.id
        tenantName := some tenant00.tenantName
        address := some tenant00.address
        locationToken := some tok
        message := "Location verified. You are outside office premises." } ∧
      ∀ now2, now2 < 0 + cfgW.locationExpiry →
        verifyLocationToken cfgW tok now2 = .ok (.location
          { tenantId := tenant00.id, employeeId := inpLocOut.employeeId
            latitude := inpLocOut.latitude
            longitude := inpLocOut.longitude })) :=
  ⟨(claim_C2_location_check_token cfgW inpLocIn 0 dbLoc empE1 tenant00
      (by decide) (by decide) (by decide)).1
      (by
        show isWithinRadius ((0 : ℚ) : ℝ) ((0 : ℚ) : ℝ) ((0 : ℚ) : ℝ)
          ((0 : ℚ) : ℝ) ((100 : ℚ) : ℝ)
        exact isWithinRadius_center _ _ _ (by positivity)),
   (claim_C2_location_check_token cfgW inpLocOut 0 dbLoc empE1 tenant00
      (by decide) (by decide) (by decide)).2 not_isWithinRadius_antipode⟩

/-- Witness for C7: both employees belong to tenant `t1`, yet redeeming
`e2`'s token as `e1` fails with the employee-mismatch error and writes
nothing. -/
theorem claim_C7_employee_mismatch_rejected_witness :
    empE2.tenantId = empE1.tenantId ∧
    checkIn cfgW inpMisW (.error ()) 1 dbC7 =
      (.error .employeeIdMismatch, dbC7) :=
  ⟨by decide,
   claim_C7_employee_mismatch_rejected cfgW inpMisW (.error ()) 1 dbC7
     ⟨"t1", "e2", 10, 20⟩ (by decide) (by decide)⟩

/-- Witness for C10: a failing check-in (invalid location token) leaves
the attendance store unchanged. -/
theorem claim_C10_error_paths_create_nothing_witness :
    (checkIn cfgW inpBadTok (.error ()) 0 db0).2 = db0 :=
  claim_C10_error_paths_create_nothing cfgW inpBadTok (.error ()) 0 db0
    .invalidLocationToken (by decide)
